import Mathlib

/-!
Shallow embedding of the verification core of the fake-news-detection
repository: the Verification Decision Engine
(`backend/app/services/verification_service.py`), the Source-Trust Engine
(`backend/app/services/source_trust_service.py`), the limit logic of the
Workflow Orchestrator (`backend/app/services/news_verification_workflow.py`),
and the shared constants (`backend/app/core/constants.py`).

Python floats are modelled as rationals (ℚ); timestamps are modelled as
rational seconds since the epoch (the code normalizes naive datetimes to UTC,
so an absolute time line is faithful); Python dictionaries are modelled as
functions into `Option`; raising a typed exception is modelled as returning
`Except`.
-/

namespace FakeNewsDetection

/-! ### Shared constants (`backend/app/core/constants.py`) -/

/-- Verification status codes (`VerificationStatus` enum in `constants.py`).
The enum has seven members; only five are scoring outcomes. -/
inductive VerificationStatus where
  | verified
  | likely_true
  | uncertain
  | disputed
  | unverified
  | processing
  | failed
deriving DecidableEq, Repr

/-- Confidence levels (`ConfidenceLevel` enum in `constants.py`). -/
inductive ConfidenceLevel where
  | high
  | medium
  | low
deriving DecidableEq, Repr

def SIMILARITY_THRESHOLD : ℚ := 13/20

def DIVERSITY_THRESHOLD : ℕ := 10

def MIN_SOURCES_FOR_VERIFICATION : ℕ := 3

def SCORE_VERIFIED : ℚ := 4/5

def SCORE_LIKELY_TRUE : ℚ := 7/10

def SCORE_UNCERTAIN : ℚ := 1/2

def SCORE_DISPUTED : ℚ := 3/10

def MIN_SOURCES_VERIFIED : ℕ := 10

def MIN_SOURCES_LIKELY_TRUE : ℕ := 7

def MIN_SOURCES_UNCERTAIN : ℕ := 5

def MIN_SOURCES_DISPUTED : ℕ := 3

def CREDIBILITY_VERY_HIGH : ℚ := 9/10

def CREDIBILITY_HIGH : ℚ := 4/5

def CREDIBILITY_MEDIUM : ℚ := 13/20

def CREDIBILITY_LOW : ℚ := 2/5

def MAX_SIMILAR_ARTICLES : ℤ := 50

/-- Source bias ratings (`SourceBias` enum in `constants.py`). -/
inductive SourceBias where
  | left
  | center_left
  | center
  | center_right
  | right
  | unknown
deriving DecidableEq, Repr

/-- Source type categories (`SourceType` enum in `constants.py`). -/
inductive SourceType where
  | mainstream_media
  | independent_media
  | fact_checker
  | government
  | blog
  | social_media
  | unknown
deriving DecidableEq, Repr

/-! ### Verification Decision Engine
(`backend/app/services/verification_service.py`) -/

/-- Module-level `_clamp` of `verification_service.py`: it computes
`max(minimum, min(maximum, value))` with no check of the range. -/
def verificationServiceClamp (value minimum maximum : ℚ) : ℚ :=
  max minimum (min maximum value)

/-- Normalized representation of a similar article (`SimilarArticle`
dataclass).  `published_at` is rational seconds since the epoch. -/
structure SimilarArticle where
  source_id : String
  similarity : ℚ
  credibility : ℚ
  source_name : Option String := none
  published_at : Option ℚ := none
  country_code : Option String := none
  url : Option String := none
deriving DecidableEq, Repr

/-- `SimilarArticle.normalized_similarity`: similarity clipped to [0, 1]. -/
def SimilarArticle.normalized_similarity (a : SimilarArticle) : ℚ :=
  verificationServiceClamp a.similarity 0 1

/-- `SimilarArticle.normalized_credibility`: credibility clipped to [0, 1]. -/
def SimilarArticle.normalized_credibility (a : SimilarArticle) : ℚ :=
  verificationServiceClamp a.credibility 0 1

/-- Domain response of the decision engine (`VerificationResult`
dataclass). -/
structure VerificationResult where
  score : ℚ
  status : VerificationStatus
  confidence : ConfidenceLevel
  unique_sources : ℕ
  diversity_factor : ℚ
  recency_factor : ℚ
  geography_factor : ℚ
  reasoning : String
  supporting_articles : List SimilarArticle
deriving DecidableEq, Repr

/-- Typed failures of `VerificationService.verify`
(`NoSimilarArticlesException` and `InsufficientDataException` in
`backend/app/core/exceptions.py`; the latter carries the required and the
found source counts). -/
inductive VerifyError where
  | noSimilarArticles
  | insufficientData (required_sources found_sources : ℕ)
deriving DecidableEq, Repr

/-- Constructor parameters of `VerificationService.__init__`. -/
structure VSConfig where
  similarity_threshold : ℚ := SIMILARITY_THRESHOLD
  min_sources : ℕ := MIN_SOURCES_FOR_VERIFICATION
  diversity_threshold : ℕ := DIVERSITY_THRESHOLD
deriving DecidableEq, Repr

/-- The service with all constructor defaults. -/
def defaultVSConfig : VSConfig := {}

/-- Rounding to 4 decimal places (`round(x, 4)`).  Python rounds ties to
even on the binary float representation; the model rounds to the nearest
multiple of 1/10000 (ties upward), which agrees off ties. -/
def round4 (q : ℚ) : ℚ := (round (q * 10000) : ℚ) / 10000

/-- The fixed status requirement table built in
`VerificationService.__init__` (`self._status_requirements`). -/
def statusRequirements : List (VerificationStatus × ℚ × ℕ) :=
  [(.verified, SCORE_VERIFIED, MIN_SOURCES_VERIFIED),
   (.likely_true, SCORE_LIKELY_TRUE, MIN_SOURCES_LIKELY_TRUE),
   (.uncertain, SCORE_UNCERTAIN, MIN_SOURCES_UNCERTAIN),
   (.disputed, SCORE_DISPUTED, MIN_SOURCES_DISPUTED)]

/-- First-match scan of the requirement table, as the `for` loop of
`VerificationService._determine_status`. -/
def findStatus : List (VerificationStatus × ℚ × ℕ) → ℚ → ℕ → VerificationStatus
  | [], _, _ => .unverified
  | (st, min_score, min_srcs) :: rest, score, unique_sources =>
      if min_score ≤ score ∧ min_srcs ≤ unique_sources then st
      else findStatus rest score unique_sources

/-- `VerificationService._determine_status` (status component). -/
def determineStatus (score : ℚ) (unique_sources : ℕ) : VerificationStatus :=
  findStatus statusRequirements score unique_sources

/-- `VerificationService._status_reason`. -/
def statusReason : VerificationStatus → String
  | .verified => "Multiple independent, high-credibility sources confirm the story."
  | .likely_true => "Story is supported by several reputable sources but lacks maximum coverage."
  | .uncertain => "Conflicting or limited sources - more verification required."
  | .disputed => "Reports exist but reliability is questionable or contradictory."
  | _ => "Insufficient trustworthy sources to verify the story."

/-- `VerificationService._determine_confidence`. -/
def determineConfidence (score : ℚ) : ConfidenceLevel :=
  if SCORE_VERIFIED ≤ score then .high
  else if SCORE_UNCERTAIN ≤ score then .medium
  else .low

/-- `VerificationService._select_articles`: keep candidates whose clamped
similarity reaches the threshold, re-emitting them with clamped similarity
and credibility. -/
def selectArticles (cfg : VSConfig) (articles : List SimilarArticle) :
    List SimilarArticle :=
  (articles.filter
      (fun a => cfg.similarity_threshold ≤ a.normalized_similarity)).map
    (fun a =>
      { a with
        similarity := a.normalized_similarity
        credibility := a.normalized_credibility })

/-- Count of distinct `source_id` values (the Python set
`{item.source_id for item in selected}` and its `len`). -/
def uniqueSources (articles : List SimilarArticle) : ℕ :=
  ((articles.map (·.source_id)).dedup).length

/-- `VerificationService._calculate_weighted_average`:
`Σ credibility × similarity / n`. -/
def weightedAverage (articles : List SimilarArticle) : ℚ :=
  if articles = [] then 0
  else (articles.map (fun a => a.credibility * a.similarity)).sum / articles.length

/-- `VerificationService._calculate_diversity_factor`. -/
def diversityFactor (cfg : VSConfig) (unique_sources : ℕ) : ℚ :=
  if unique_sources ≤ 0 then 0
  else min ((unique_sources : ℚ) / (cfg.diversity_threshold : ℚ)) 1

/-- Age-bucket weight of `_calculate_recency_factor`: the `if/elif` ladder
on `age_days` with inclusive boundaries 7, 30, 90. -/
def recencyWeight (age_days : ℚ) : ℚ :=
  if age_days ≤ 7 then 1
  else if age_days ≤ 30 then 4/5
  else if age_days ≤ 90 then 1/2
  else 1/5

/-- Publication timestamps of the dated candidates, in list order (the
articles the `for` loop of `_calculate_recency_factor` does not skip). -/
def datedTimes (articles : List SimilarArticle) : List ℚ :=
  articles.filterMap (·.published_at)

/-- Hour bucket of a timestamp: `published_at.replace(minute=0, second=0,
microsecond=0)`, i.e. the floor of the timestamp to the hour. -/
def hourBucket (p : ℚ) : ℤ := ⌊p / 3600⌋

/-- Largest hourly bucket population (`max(hourly_buckets.values())`,
0 when there are no dated candidates). -/
def maxHourlyBucket (articles : List SimilarArticle) : ℕ :=
  let buckets := (datedTimes articles).map hourBucket
  (buckets.map (fun b => buckets.count b)).foldr max 0

/-- The per-article recency weights collected by the loop of
`_calculate_recency_factor`. -/
def recencyWeights (now : ℚ) (articles : List SimilarArticle) : List ℚ :=
  (datedTimes articles).map (fun p => recencyWeight ((now - p) / 86400))

/-- `VerificationService._calculate_recency_factor`.  `now` is the wall
clock read by `datetime.now(timezone.utc)`, passed explicitly. -/
def recencyFactor (now : ℚ) (articles : List SimilarArticle) : ℚ :=
  let weights := recencyWeights now articles
  let base_factor := if weights = [] then 1 else weights.sum / weights.length
  let same_hour_max := maxHourlyBucket articles
  if 3 ≤ same_hour_max then
    let boost :=
      min (1 + ((same_hour_max : ℚ) / (articles.length : ℚ)) * (1/5)) (6/5)
    verificationServiceClamp (base_factor * boost) 0 (6/5)
  else verificationServiceClamp base_factor 0 1

/-- Upper-cased country codes present among the candidates (the Python set
comprehension keeps only truthy `country_code`, so `None` and the empty
string are both skipped). -/
def countryCodes (articles : List SimilarArticle) : List String :=
  (articles.filterMap
      (fun a =>
        match a.country_code with
        | none => none
        | some c => if c = "" then none else some c.toUpper)).dedup

/-- `VerificationService._calculate_geography_factor`. -/
def geographyFactor (articles : List SimilarArticle) : ℚ :=
  let countries := countryCodes articles
  if countries = [] then 1
  else min ((countries.length : ℚ) / 5) 1

/-- `VerificationService.verify`. -/
def verify (cfg : VSConfig) (now : ℚ) (articles : List SimilarArticle) :
    Except VerifyError VerificationResult :=
  let selected := selectArticles cfg articles
  if selected = [] then .error .noSimilarArticles
  else
    let unique_count := uniqueSources selected
    if unique_count < cfg.min_sources then
      .error (.insufficientData cfg.min_sources unique_count)
    else
      let weighted_average := weightedAverage selected
      let diversity_factor := diversityFactor cfg unique_count
      let recency_factor := recencyFactor now selected
      let geography_factor := geographyFactor selected
      let raw_score := weighted_average * diversity_factor * recency_factor * geography_factor
      let score := verificationServiceClamp (round4 raw_score) 0 1
      let status := determineStatus score unique_count
      .ok
        { score := score
          status := status
          confidence := determineConfidence score
          unique_sources := unique_count
          diversity_factor := diversity_factor
          recency_factor := recency_factor
          geography_factor := geography_factor
          reasoning := statusReason status
          supporting_articles := selected }

/-! ### Source-Trust Engine
(`backend/app/services/source_trust_service.py`) -/

/-- Base fault type for the verification domain (`VerificationException`
in `backend/app/core/exceptions.py`, carrying a message). -/
inductive DomainFault where
  | verificationFault (message : String)
deriving DecidableEq, Repr

/-- Module-level `_clamp` of `source_trust_service.py`: unlike the decision
engine clamp, it raises `VerificationException("Invalid clamp range")` when
the minimum exceeds the maximum. -/
def sourceTrustClamp (value minimum maximum : ℚ) : Except DomainFault ℚ :=
  if maximum < minimum then .error (.verificationFault "Invalid clamp range")
  else .ok (max minimum (min maximum value))

/-- Total clamp used inside the trust-service model; it agrees with the
raising clamp on every non-inverted range, and the service only ever calls
its clamp with the range [0, 1] (see `sourceTrustClamp_zero_one`). -/
def clamp01 (value : ℚ) : ℚ := max 0 (min 1 value)

/-- On the range [0, 1] the raising clamp of the trust engine never faults
and agrees with `clamp01`, so the total clamp is a faithful rendering of
every call site inside the service. -/
theorem sourceTrustClamp_zero_one (v : ℚ) :
    sourceTrustClamp v 0 1 = .ok (clamp01 v) := by
  simp [sourceTrustClamp, clamp01]

/-- Behavioral metrics of a news source (`SourceTrustMetrics` dataclass). -/
structure SourceTrustMetrics where
  accuracy_history : ℚ
  editorial_standards : ℚ
  transparency_level : ℚ
  correction_speed : ℚ
deriving DecidableEq, Repr

/-- `SourceTrustMetrics.normalized`: each metric clamped to [0, 1]. -/
def SourceTrustMetrics.normalized (m : SourceTrustMetrics) : SourceTrustMetrics :=
  { accuracy_history := clamp01 m.accuracy_history
    editorial_standards := clamp01 m.editorial_standards
    transparency_level := clamp01 m.transparency_level
    correction_speed := clamp01 m.correction_speed }

/-- Outcome of a trust score calculation (`SourceTrustScore` dataclass).
The `components` mapping is modelled as an association list. -/
structure SourceTrustScore where
  score : ℚ
  tier : String
  method : String
  rationale : String
  components : List (String × ℚ)
deriving DecidableEq, Repr

/-- State of `SourceTrustService`: the override and bias-adjustment
dictionaries, modelled as functions into `Option`. -/
structure SourceTrustService where
  overrides : String → Option ℚ
  bias_adjustments : SourceBias → Option ℚ

/-- A service constructed with no overrides and no bias adjustments (the
constructor defaults). -/
def emptyTrustService : SourceTrustService :=
  { overrides := fun _ => none, bias_adjustments := fun _ => none }

/-- `self._baseline_by_type` built in `SourceTrustService.__init__`. -/
def baselineByType : SourceType → ℚ
  | .fact_checker => CREDIBILITY_VERY_HIGH
  | .mainstream_media => CREDIBILITY_HIGH
  | .government => CREDIBILITY_HIGH
  | .independent_media => CREDIBILITY_MEDIUM
  | .blog => CREDIBILITY_LOW
  | .social_media => CREDIBILITY_LOW
  | .unknown => CREDIBILITY_LOW

/-- `SourceTrustService._classify`: the fixed threshold ladder from a
numeric score to a tier name. -/
def classify (score : ℚ) : String :=
  if CREDIBILITY_VERY_HIGH ≤ score then "very_high"
  else if CREDIBILITY_HIGH ≤ score then "high"
  else if CREDIBILITY_MEDIUM ≤ score then "medium"
  else if CREDIBILITY_LOW < score then "low"
  else "very_low"

/-- `SourceTrustService._apply_bias_adjustment`: add the configured
adjustment (0 when the bias has none) and clamp to [0, 1]. -/
def applyBiasAdjustment (svc : SourceTrustService) (score : ℚ)
    (bias : SourceBias) : ℚ :=
  clamp01 (score + (svc.bias_adjustments bias).getD 0)

/-- `SourceTrustService.register_manual_override`: store the clamped score
under the source id (dictionary assignment). -/
def registerManualOverride (svc : SourceTrustService) (source_id : String)
    (score : ℚ) : SourceTrustService :=
  { svc with
    overrides := fun k =>
      if k = source_id then some (clamp01 score) else svc.overrides k }

/-- `SourceTrustService.calculate_manual_score`. -/
def calculateManualScore (svc : SourceTrustService) (source_id : String)
    (source_type : SourceType) (bias : SourceBias) : SourceTrustScore :=
  let base_score := (svc.overrides source_id).getD (baselineByType source_type)
  let adjusted := applyBiasAdjustment svc base_score bias
  { score := adjusted
    tier := classify adjusted
    method := "manual"
    rationale := "Manual baseline derived from source type and optional editorial overrides."
    components := [("base_score", base_score), ("bias_adjustment", adjusted - base_score)] }

/-- `SourceTrustService.calculate_dynamic_score`. -/
def calculateDynamicScore (svc : SourceTrustService) (metrics : SourceTrustMetrics)
    (source_type : SourceType) (bias : SourceBias)
    (blend_with_manual : Bool) : SourceTrustScore :=
  let normalized := metrics.normalized
  let weighted :=
    normalized.accuracy_history * (2/5)
      + normalized.editorial_standards * (3/10)
      + normalized.transparency_level * (1/5)
      + normalized.correction_speed * (1/10)
  let dynamic_score :=
    if blend_with_manual then (weighted + baselineByType source_type) / 2
    else weighted
  let adjusted := applyBiasAdjustment svc dynamic_score bias
  { score := adjusted
    tier := classify adjusted
    method := "dynamic"
    rationale :=
      if blend_with_manual then
        "Weighted metrics (accuracy, editorial standards, transparency, correction speed) blended with type baseline"
      else "Weighted behavioral metrics"
    components :=
      [("accuracy_history", normalized.accuracy_history),
       ("editorial_standards", normalized.editorial_standards),
       ("transparency_level", normalized.transparency_level),
       ("correction_speed", normalized.correction_speed),
       ("baseline", if blend_with_manual then baselineByType source_type else 0),
       ("bias_adjustment", adjusted - dynamic_score)] }

/-- `SourceTrustService.combine_scores`.  The numeric formatting of the
weights inside the Python f-string rationale is not reproduced; the
rationale text is otherwise fixed. -/
def combineScores (manual_score dynamic_score : SourceTrustScore)
    (manual_weight : ℚ) : SourceTrustScore :=
  let w := clamp01 manual_weight
  let combined_value := manual_score.score * w + dynamic_score.score * (1 - w)
  { score := clamp01 combined_value
    tier := classify combined_value
    method := "hybrid"
    rationale := "Blended manual and dynamic trust scores with weights."
    components :=
      [("manual_score", manual_score.score),
       ("dynamic_score", dynamic_score.score),
       ("manual_weight", w)] }

/-! ### Workflow Orchestrator limit logic
(`backend/app/services/news_verification_workflow.py`) -/

/-- The stored default limit computed in `NewsVerificationWorkflow.__init__`:
`self._default_limit = min(default_limit, MAX_SIMILAR_ARTICLES)`. -/
def initDefaultLimit (default_limit : ℤ) : ℤ :=
  min default_limit MAX_SIMILAR_ARTICLES

/-- `NewsVerificationWorkflow._determine_limit`, applied to the stored
default. -/
def determineLimit (stored_default : ℤ) (limit : Option ℤ) : ℤ :=
  match limit with
  | none => stored_default
  | some l => if l ≤ 0 then 1 else min l MAX_SIMILAR_ARTICLES

/-- Search limit actually passed to the search collaborator by a workflow
constructed with `default_limit`, for a `verify_text` call carrying
`limit`. -/
def effectiveSearchLimit (default_limit : ℤ) (limit : Option ℤ) : ℤ :=
  determineLimit (initDefaultLimit default_limit) limit

/-! ### Spec-side definitions and concrete sample inputs -/

/-- Status ladder as the specification words it: the explicit ordered table
(VERIFIED, 0.80, 10), (LIKELY_TRUE, 0.70, 7), (UNCERTAIN, 0.50, 5),
(DISPUTED, 0.30, 3) evaluated top-down, UNVERIFIED when none matches. -/
def statusLadderSpec (score : ℚ) (unique_sources : ℕ) : VerificationStatus :=
  if SCORE_VERIFIED ≤ score ∧ MIN_SOURCES_VERIFIED ≤ unique_sources then .verified
  else if SCORE_LIKELY_TRUE ≤ score ∧ MIN_SOURCES_LIKELY_TRUE ≤ unique_sources then .likely_true
  else if SCORE_UNCERTAIN ≤ score ∧ MIN_SOURCES_UNCERTAIN ≤ unique_sources then .uncertain
  else if SCORE_DISPUTED ≤ score ∧ MIN_SOURCES_DISPUTED ≤ unique_sources then .disputed
  else .unverified

/-- Boolean check that an article's recency age bucket is the same under
two clock readings (used to state when two `verify` calls agree). -/
def sameAgeBucket (now1 now2 : ℚ) (a : SimilarArticle) : Bool :=
  match a.published_at with
  | none => true
  | some p => recencyWeight ((now1 - p) / 86400) = recencyWeight ((now2 - p) / 86400)

/-- Three distinct-source candidates, all published at the epoch, all with
similarity and credibility 0.9. -/
def sampleArticles : List SimilarArticle :=
  [{ source_id := "a", similarity := 9/10, credibility := 9/10, published_at := some 0 },
   { source_id := "b", similarity := 9/10, credibility := 9/10, published_at := some 0 },
   { source_id := "c", similarity := 9/10, credibility := 9/10, published_at := some 0 }]

/-- The result `verify` produces on `sampleArticles` at clock reading 0:
weighted average 0.81, diversity 3/10, recency boosted to 1.2, geography 1,
score 0.81 × 0.3 × 1.2 = 0.2916. -/
def sampleResult : VerificationResult :=
  { score := 729/2500
    status := .unverified
    confidence := .low
    unique_sources := 3
    diversity_factor := 3/10
    recency_factor := 6/5
    geography_factor := 1
    reasoning := statusReason .unverified
    supporting_articles := sampleArticles }

/-- A single candidate whose similarity 0.5 sits below the 0.65 threshold. -/
def lowSimArticles : List SimilarArticle :=
  [{ source_id := "x", similarity := 1/2, credibility := 1/2 }]

/-- Two surviving candidates from only two distinct sources. -/
def twoSourceArticles : List SimilarArticle :=
  [{ source_id := "a", similarity := 9/10, credibility := 9/10 },
   { source_id := "b", similarity := 9/10, credibility := 9/10 }]

/-! ### Theorems -/

/-- The coded first-match scan over the fixed requirement table agrees with
the specification's explicit top-down ladder. -/
theorem determineStatus_eq_ladder (score : ℚ) (unique_sources : ℕ) :
    determineStatus score unique_sources = statusLadderSpec score unique_sources := rfl

/-- The ladder only ever produces one of the five scoring statuses. -/
theorem statusLadderSpec_mem (score : ℚ) (unique_sources : ℕ) :
    statusLadderSpec score unique_sources = .verified
      ∨ statusLadderSpec score unique_sources = .likely_true
      ∨ statusLadderSpec score unique_sources = .uncertain
      ∨ statusLadderSpec score unique_sources = .disputed
      ∨ statusLadderSpec score unique_sources = .unverified := by
  unfold statusLadderSpec
  split_ifs <;> simp

/-- The decision engine raises no-similar-articles exactly when the
similarity filter leaves nothing. -/
theorem verify_noSimilar_iff (cfg : VSConfig) (now : ℚ)
    (articles : List SimilarArticle) :
    verify cfg now articles = .error .noSimilarArticles ↔
      selectArticles cfg articles = [] := by
  simp only [verify]
  split
  · simp_all
  · split <;> simp_all

/-- The similarity filter leaves nothing exactly when no candidate's
clamped similarity reaches the threshold. -/
theorem selectArticles_eq_nil_iff (cfg : VSConfig) (articles : List SimilarArticle) :
    selectArticles cfg articles = [] ↔
      ∀ a ∈ articles, a.normalized_similarity < cfg.similarity_threshold := by
  simp only [selectArticles, List.map_eq_nil_iff, List.filter_eq_nil_iff,
    decide_eq_true_eq, not_le]

/-- C1: for every candidate collection on which `verify` succeeds, the
returned score equals the weighted average Σ(credibility × similarity)/n
over the surviving (similarity-filtered, clamped) candidates, multiplied by
the diversity factor, the recency factor and the geography factor, rounded
to 4 decimal places and clamped to [0, 1]. -/
theorem claim_C1_score_is_composite (cfg : VSConfig) (now : ℚ)
    (articles : List SimilarArticle) (r : VerificationResult)
    (h : verify cfg now articles = .ok r) :
    r.score =
      verificationServiceClamp
        (round4 (weightedAverage (selectArticles cfg articles)
          * diversityFactor cfg (uniqueSources (selectArticles cfg articles))
          * recencyFactor now (selectArticles cfg articles)
          * geographyFactor (selectArticles cfg articles))) 0 1 := by
  simp only [verify] at h
  split at h
  · exact Except.noConfusion h
  · split at h
    · exact Except.noConfusion h
    · cases h
      rfl

/-- C1 witness: on `sampleArticles` at clock reading 0 the engine succeeds
with `sampleResult`, whose score satisfies the composite formula. -/
theorem claim_C1_score_is_composite_witness :
    verify defaultVSConfig 0 sampleArticles = .ok sampleResult
      ∧ sampleResult.score =
        verificationServiceClamp
          (round4 (weightedAverage (selectArticles defaultVSConfig sampleArticles)
            * diversityFactor defaultVSConfig (uniqueSources (selectArticles defaultVSConfig sampleArticles))
            * recencyFactor 0 (selectArticles defaultVSConfig sampleArticles)
            * geographyFactor (selectArticles defaultVSConfig sampleArticles))) 0 1 := by
  have h : verify defaultVSConfig 0 sampleArticles = .ok sampleResult := by
    norm_num +decide [verify, selectArticles, sampleArticles, sampleResult, defaultVSConfig,
      SimilarArticle.normalized_similarity, SimilarArticle.normalized_credibility,
      verificationServiceClamp, SIMILARITY_THRESHOLD, uniqueSources, weightedAverage,
      diversityFactor, DIVERSITY_THRESHOLD, MIN_SOURCES_FOR_VERIFICATION,
      recencyFactor, recencyWeights, datedTimes, maxHourlyBucket, hourBucket, recencyWeight,
      geographyFactor, countryCodes, round4, round_eq, determineStatus, findStatus,
      statusRequirements, SCORE_VERIFIED, SCORE_LIKELY_TRUE, SCORE_UNCERTAIN, SCORE_DISPUTED,
      MIN_SOURCES_VERIFIED, MIN_SOURCES_LIKELY_TRUE, MIN_SOURCES_UNCERTAIN, MIN_SOURCES_DISPUTED,
      determineConfidence, statusReason, List.filter, List.filterMap, List.map, List.count,
      List.foldr, List.sum, List.dedup, List.pwFilter]
  exact ⟨h, claim_C1_score_is_composite defaultVSConfig 0 sampleArticles sampleResult h⟩

/-- C2: for every successful `verify` call the returned status is decided
by the fixed priority ladder (VERIFIED 0.80/10, LIKELY_TRUE 0.70/7,
UNCERTAIN 0.50/5, DISPUTED 0.30/3, first entry whose score and
unique-source conditions both hold, else UNVERIFIED); a score of 0.85 with
8 unique sources yields LIKELY_TRUE, and the status is always one of the
five scoring values. -/
theorem claim_C2_status_ladder (cfg : VSConfig) (now : ℚ)
    (articles : List SimilarArticle) (r : VerificationResult)
    (h : verify cfg now articles = .ok r) :
    r.status = statusLadderSpec r.score r.unique_sources
      ∧ determineStatus (17/20) 8 = .likely_true
      ∧ (r.status = .verified ∨ r.status = .likely_true ∨ r.status = .uncertain
          ∨ r.status = .disputed ∨ r.status = .unverified) := by
  have hinstance : determineStatus (17/20) 8 = .likely_true := by
    norm_num [determineStatus, findStatus, statusRequirements, SCORE_VERIFIED,
      SCORE_LIKELY_TRUE, MIN_SOURCES_VERIFIED, MIN_SOURCES_LIKELY_TRUE]
  simp only [verify] at h
  split at h
  · exact Except.noConfusion h
  · split at h
    · exact Except.noConfusion h
    · cases h
      exact ⟨determineStatus_eq_ladder _ _, hinstance,
        by rw [show (VerificationResult.status _) = statusLadderSpec _ _ from
              determineStatus_eq_ladder _ _]
           exact statusLadderSpec_mem _ _⟩

/-- C2 witness: the sample run succeeds and its status obeys the ladder. -/
theorem claim_C2_status_ladder_witness :
    verify defaultVSConfig 0 sampleArticles = .ok sampleResult
      ∧ sampleResult.status = statusLadderSpec sampleResult.score sampleResult.unique_sources := by
  have h : verify defaultVSConfig 0 sampleArticles = .ok sampleResult := by
    norm_num +decide [verify, selectArticles, sampleArticles, sampleResult, defaultVSConfig,
      SimilarArticle.normalized_similarity, SimilarArticle.normalized_credibility,
      verificationServiceClamp, SIMILARITY_THRESHOLD, uniqueSources, weightedAverage,
      diversityFactor, DIVERSITY_THRESHOLD, MIN_SOURCES_FOR_VERIFICATION,
      recencyFactor, recencyWeights, datedTimes, maxHourlyBucket, hourBucket, recencyWeight,
      geographyFactor, countryCodes, round4, round_eq, determineStatus, findStatus,
      statusRequirements, SCORE_VERIFIED, SCORE_LIKELY_TRUE, SCORE_UNCERTAIN, SCORE_DISPUTED,
      MIN_SOURCES_VERIFIED, MIN_SOURCES_LIKELY_TRUE, MIN_SOURCES_UNCERTAIN, MIN_SOURCES_DISPUTED,
      determineConfidence, statusReason, List.filter, List.filterMap, List.map, List.count,
      List.foldr, List.sum, List.dedup, List.pwFilter]
  exact ⟨h, (claim_C2_status_ladder defaultVSConfig 0 sampleArticles sampleResult h).1⟩

/-- C3: `verify` fails with the no-similar-articles fault exactly when no
candidate's clamped similarity reaches the threshold (default 0.65, the
comparison being ≥); and when some candidates pass but the distinct
`source_id` count of the survivors is below the configured minimum (default
3), it fails with the distinct insufficient-data fault carrying the
required and the found counts. -/
theorem claim_C3_failure_modes (cfg : VSConfig) (now : ℚ)
    (articles : List SimilarArticle) :
    (verify cfg now articles = .error .noSimilarArticles ↔
        ∀ a ∈ articles, a.normalized_similarity < cfg.similarity_threshold)
      ∧ (∀ u, selectArticles cfg articles ≠ [] →
          uniqueSources (selectArticles cfg articles) = u →
          u < cfg.min_sources →
          verify cfg now articles = .error (.insufficientData cfg.min_sources u))
      ∧ defaultVSConfig.similarity_threshold = 13/20
      ∧ defaultVSConfig.min_sources = 3 := by
  refine ⟨?_, ?_, rfl, rfl⟩
  · rw [verify_noSimilar_iff, selectArticles_eq_nil_iff]
  · intro u hne hu hlt
    simp only [verify]
    split
    · exact absurd (by assumption) hne
    · rw [hu]
      split
      · rfl
      · omega

/-- C3 witness: a below-threshold collection triggers no-similar-articles;
two surviving sources trigger insufficient-data(required 3, found 2). -/
theorem claim_C3_failure_modes_witness :
    verify defaultVSConfig 0 lowSimArticles = .error .noSimilarArticles
      ∧ verify defaultVSConfig 0 twoSourceArticles = .error (.insufficientData 3 2) := by
  constructor
  · exact (claim_C3_failure_modes defaultVSConfig 0 lowSimArticles).1.mpr
      (by norm_num [lowSimArticles, SimilarArticle.normalized_similarity,
        verificationServiceClamp, defaultVSConfig, SIMILARITY_THRESHOLD])
  · exact (claim_C3_failure_modes defaultVSConfig 0 twoSourceArticles).2.1 2
      (by norm_num +decide [selectArticles, twoSourceArticles, defaultVSConfig,
        SIMILARITY_THRESHOLD, SimilarArticle.normalized_similarity,
        SimilarArticle.normalized_credibility, verificationServiceClamp, List.filter, List.map])
      (by norm_num +decide [uniqueSources, selectArticles, twoSourceArticles, defaultVSConfig,
        SIMILARITY_THRESHOLD, SimilarArticle.normalized_similarity,
        SimilarArticle.normalized_credibility, verificationServiceClamp, List.filter, List.map,
        List.dedup, List.pwFilter])
      (by norm_num [defaultVSConfig, MIN_SOURCES_FOR_VERIFICATION])

/-- The recency weight list is empty exactly when no candidate carries a
timestamp. -/
theorem recencyWeights_eq_nil_iff (now : ℚ) (articles : List SimilarArticle) :
    recencyWeights now articles = [] ↔ ∀ a ∈ articles, a.published_at = none := by
  simp [recencyWeights, datedTimes, List.filterMap_eq_nil_iff]

/-- A populated hour bucket forces at least one dated candidate. -/
theorem maxHourlyBucket_pos_dated (articles : List SimilarArticle)
    (h : 3 ≤ maxHourlyBucket articles) : datedTimes articles ≠ [] := by
  intro hnil
  simp [maxHourlyBucket, hnil] at h

/-- C4: the recency factor is the mean of the per-article age-bucket
weights (1.0 up to 7 days, 0.8 up to 30, 0.5 up to 90, 0.2 beyond, the
boundary days inclusive) over the dated candidates, 1.0 when none is
dated; when some hourly bucket holds 3 or more candidates the mean is
multiplied by min(1 + (max_bucket_count / n) × 0.2, 1.2) and clamped to
[0, 1.2], and otherwise the factor is clamped to [0, 1]. -/
theorem claim_C4_recency_factor (now : ℚ) (articles : List SimilarArticle) :
    ((∀ a ∈ articles, a.published_at = none) → recencyFactor now articles = 1)
      ∧ (recencyWeight 0 = 1 ∧ recencyWeight 7 = 1 ∧ recencyWeight 8 = 4/5
          ∧ recencyWeight 30 = 4/5 ∧ recencyWeight 31 = 1/2
          ∧ recencyWeight 90 = 1/2 ∧ recencyWeight 91 = 1/5)
      ∧ (3 ≤ maxHourlyBucket articles →
          recencyFactor now articles =
            verificationServiceClamp
              ((recencyWeights now articles).sum / ((recencyWeights now articles).length : ℚ)
                * min (1 + ((maxHourlyBucket articles : ℚ) / (articles.length : ℚ)) * (1/5)) (6/5))
              0 (6/5))
      ∧ (maxHourlyBucket articles < 3 →
          recencyFactor now articles =
            verificationServiceClamp
              (if recencyWeights now articles = [] then 1
                else (recencyWeights now articles).sum / ((recencyWeights now articles).length : ℚ))
              0 1) := by
  refine ⟨?_, by norm_num [recencyWeight], ?_, ?_⟩
  · intro hnone
    have hw : recencyWeights now articles = [] :=
      (recencyWeights_eq_nil_iff now articles).mpr hnone
    have hd : datedTimes articles = [] := by
      simpa [recencyWeights] using hw
    simp [recencyFactor, hw, hd, maxHourlyBucket, verificationServiceClamp]
  · intro hmax
    have hd : datedTimes articles ≠ [] := maxHourlyBucket_pos_dated articles hmax
    have hw : ¬ recencyWeights now articles = [] := by
      simpa [recencyWeights] using hd
    simp only [recencyFactor, if_pos hmax, if_neg hw]
  · intro hmax
    simp only [recencyFactor, if_neg (by omega : ¬ 3 ≤ maxHourlyBucket articles)]

/-- C4 witness: a collection with no timestamps gets the neutral factor 1;
`sampleArticles` (three candidates in one hour bucket at clock reading 0)
gets the boosted, clamped mean. -/
theorem claim_C4_recency_factor_witness :
    recencyFactor 0 lowSimArticles = 1
      ∧ recencyFactor 0 sampleArticles =
        verificationServiceClamp
          ((recencyWeights 0 sampleArticles).sum / ((recencyWeights 0 sampleArticles).length : ℚ)
            * min (1 + ((maxHourlyBucket sampleArticles : ℚ) / (sampleArticles.length : ℚ)) * (1/5)) (6/5))
          0 (6/5) := by
  constructor
  · exact (claim_C4_recency_factor 0 lowSimArticles).1
      (by intro a ha
          simp only [lowSimArticles, List.mem_singleton] at ha
          simp [ha])
  · exact (claim_C4_recency_factor 0 sampleArticles).2.2.1
      (by norm_num +decide [maxHourlyBucket, datedTimes, hourBucket, sampleArticles,
        List.filterMap, List.map, List.count, List.foldr])

/-- C5: for every positive unique-source count the diversity factor equals
min(u / diversity_threshold, 1); it is monotone non-decreasing in the
count, saturates exactly at the threshold (default 10), and stays 1
beyond it. -/
theorem claim_C5_diversity_factor (cfg : VSConfig) (u v : ℕ) (hu : 0 < u) :
    diversityFactor cfg u = min ((u : ℚ) / (cfg.diversity_threshold : ℚ)) 1
      ∧ (u ≤ v → diversityFactor cfg u ≤ diversityFactor cfg v)
      ∧ (0 < cfg.diversity_threshold →
          diversityFactor cfg cfg.diversity_threshold = 1)
      ∧ (0 < cfg.diversity_threshold → cfg.diversity_threshold ≤ u →
          diversityFactor cfg u = 1)
      ∧ defaultVSConfig.diversity_threshold = 10 := by
  refine ⟨?_, ?_, ?_, ?_, rfl⟩
  · simp only [diversityFactor, if_neg (by omega : ¬ u ≤ 0)]
  · intro huv
    have hv : 0 < v := lt_of_lt_of_le hu huv
    simp only [diversityFactor, if_neg (by omega : ¬ u ≤ 0), if_neg (by omega : ¬ v ≤ 0)]
    rcases Nat.eq_zero_or_pos cfg.diversity_threshold with hd | hd
    · simp [hd]
    · have hdq : (0 : ℚ) < (cfg.diversity_threshold : ℚ) := by exact_mod_cast hd
      have huvq : (u : ℚ) ≤ (v : ℚ) := by exact_mod_cast huv
      exact min_le_min (by gcongr) le_rfl
  · intro hd
    have hne : ((cfg.diversity_threshold : ℚ)) ≠ 0 := by
      exact_mod_cast Nat.pos_iff_ne_zero.mp hd
    simp only [diversityFactor, if_neg (by omega : ¬ cfg.diversity_threshold ≤ 0)]
    rw [div_self hne, min_self]
  · intro hd hle
    have hdq : (0 : ℚ) < (cfg.diversity_threshold : ℚ) := by exact_mod_cast hd
    have hleq : ((cfg.diversity_threshold : ℚ)) ≤ (u : ℚ) := by exact_mod_cast hle
    simp only [diversityFactor, if_neg (by omega : ¬ u ≤ 0)]
    rw [min_eq_right ((one_le_div hdq).mpr hleq)]

/-- C5 witness: with the default threshold 10 the factor is 3/10 at 3
sources, monotone from 3 to 5, 1 at 10 and still 1 at 20 sources. -/
theorem claim_C5_diversity_factor_witness :
    diversityFactor defaultVSConfig 3 = min ((3 : ℚ) / 10) 1
      ∧ diversityFactor defaultVSConfig 3 ≤ diversityFactor defaultVSConfig 5
      ∧ diversityFactor defaultVSConfig 10 = 1
      ∧ diversityFactor defaultVSConfig 20 = 1 := by
  have h3 := claim_C5_diversity_factor defaultVSConfig 3 5 (by norm_num)
  have h20 := claim_C5_diversity_factor defaultVSConfig 20 20 (by norm_num)
  refine ⟨h3.1, h3.2.1 (by norm_num), ?_, ?_⟩
  · exact h3.2.2.1 (by norm_num [defaultVSConfig, DIVERSITY_THRESHOLD])
  · exact h20.2.2.2.1 (by norm_num [defaultVSConfig, DIVERSITY_THRESHOLD])
      (by norm_num [defaultVSConfig, DIVERSITY_THRESHOLD])

/-- Clamping to [0, 1] never changes the tier: the ladder is constant at
`very_high` above 1 and at `very_low` below 0. -/
theorem classify_clamp01 (x : ℚ) : classify (clamp01 x) = classify x := by
  unfold classify clamp01 CREDIBILITY_VERY_HIGH CREDIBILITY_HIGH CREDIBILITY_MEDIUM CREDIBILITY_LOW
  rcases le_total 1 x with h1 | h1
  · rw [min_eq_left h1, max_eq_right (by norm_num : (0:ℚ) ≤ 1)]
    rw [if_pos (by norm_num), if_pos (by linarith)]
  · rw [min_eq_right h1]
    rcases le_total x 0 with h0 | h0
    · rw [max_eq_left h0]
      split_ifs <;> first | rfl | linarith
    · rw [max_eq_right h0]

/-- C6: every trust score the engine produces (manual, dynamic or hybrid)
carries the tier obtained from its numeric score by the fixed threshold
ladder ≥0.90 very_high, ≥0.80 high, ≥0.65 medium, >0.40 low, else
very_low, and the four threshold constants are the shared credibility
constants 0.90 / 0.80 / 0.65 / 0.40. -/
theorem claim_C6_tier_from_score (svc : SourceTrustService) (source_id : String)
    (source_type : SourceType) (bias : SourceBias) (metrics : SourceTrustMetrics)
    (blend : Bool) (m d : SourceTrustScore) (w s : ℚ) :
    (calculateManualScore svc source_id source_type bias).tier
        = classify (calculateManualScore svc source_id source_type bias).score
      ∧ (calculateDynamicScore svc metrics source_type bias blend).tier
        = classify (calculateDynamicScore svc metrics source_type bias blend).score
      ∧ (combineScores m d w).tier = classify (combineScores m d w).score
      ∧ (classify s =
          if (9:ℚ)/10 ≤ s then "very_high"
          else if (4:ℚ)/5 ≤ s then "high"
          else if (13:ℚ)/20 ≤ s then "medium"
          else if (2:ℚ)/5 < s then "low"
          else "very_low")
      ∧ CREDIBILITY_VERY_HIGH = 9/10 ∧ CREDIBILITY_HIGH = 4/5
      ∧ CREDIBILITY_MEDIUM = 13/20 ∧ CREDIBILITY_LOW = 2/5 :=
  ⟨rfl, rfl, (classify_clamp01 _).symm, rfl, rfl, rfl, rfl, rfl⟩

/-- C7: with no override, fact-checker type and an unconfigured bias, the
manual score is exactly the fact-checker baseline; after registering an
override the clamped override replaces the baseline as the base for that
source id (bias adjustment and final clamp still applied), and manual
scores of every other source id are unchanged. -/
theorem claim_C7_manual_override (svc : SourceTrustService)
    (source_id other_id : String) (source_type : SourceType)
    (bias : SourceBias) (s : ℚ) :
    (svc.overrides source_id = none → svc.bias_adjustments bias = none →
        (calculateManualScore svc source_id .fact_checker bias).score = CREDIBILITY_VERY_HIGH)
      ∧ (calculateManualScore (registerManualOverride svc source_id s) source_id source_type bias).score
          = clamp01 (clamp01 s + (svc.bias_adjustments bias).getD 0)
      ∧ (other_id ≠ source_id →
          calculateManualScore (registerManualOverride svc source_id s) other_id source_type bias
            = calculateManualScore svc other_id source_type bias) := by
  refine ⟨?_, ?_, ?_⟩
  · intro hov hbias
    simp [calculateManualScore, applyBiasAdjustment, baselineByType, hov, hbias, clamp01,
      CREDIBILITY_VERY_HIGH]
    norm_num [min_eq_right, max_eq_right]
  · simp [calculateManualScore, registerManualOverride, applyBiasAdjustment]
  · intro hne
    simp [calculateManualScore, registerManualOverride, applyBiasAdjustment, hne]

/-- C7 witness: on an empty service, source s1 of type fact-checker with
unknown bias scores the 0.9 baseline; after registering override 0.25 for
s1 its manual score becomes 0.25 while s2 is untouched. -/
theorem claim_C7_manual_override_witness :
    (calculateManualScore emptyTrustService "s1" .fact_checker .unknown).score = CREDIBILITY_VERY_HIGH
      ∧ (calculateManualScore (registerManualOverride emptyTrustService "s1" (1/4)) "s1" .fact_checker .unknown).score
          = clamp01 (clamp01 (1/4) + ((emptyTrustService.bias_adjustments SourceBias.unknown).getD 0))
      ∧ calculateManualScore (registerManualOverride emptyTrustService "s1" (1/4)) "s2" .fact_checker .unknown
          = calculateManualScore emptyTrustService "s2" .fact_checker .unknown := by
  have h := claim_C7_manual_override emptyTrustService "s1" "s2" .fact_checker .unknown (1/4)
  exact ⟨h.1 rfl rfl, h.2.1, h.2.2 (by simp)⟩

/-- C8 counterexample: at the inverted range minimum 1 > maximum 0 the
decision engine's clamp silently returns the minimum instead of raising,
while the trust engine's clamp raises the verification-domain fault — so
"the clamp used by the core's components raises on an inverted range" is
false for the decision engine's clamp. -/
theorem claim_C8_counterexample :
    verificationServiceClamp (1/2) 1 0 = 1
      ∧ sourceTrustClamp (1/2) 1 0 = .error (.verificationFault "Invalid clamp range") := by
  constructor
  · norm_num [verificationServiceClamp]
  · norm_num [sourceTrustClamp]

/-- C8 amended: the Source-Trust Engine's clamp raises a
verification-domain fault exactly on an inverted range and otherwise
clamps; the Decision Engine's clamp never raises and silently computes
max(minimum, min(maximum, value)) for every range, inverted included. -/
theorem claim_C8_amended_clamp (value minimum maximum : ℚ) :
    (maximum < minimum →
        sourceTrustClamp value minimum maximum
          = .error (.verificationFault "Invalid clamp range"))
      ∧ (minimum ≤ maximum →
          sourceTrustClamp value minimum maximum
            = .ok (max minimum (min maximum value)))
      ∧ verificationServiceClamp value minimum maximum
          = max minimum (min maximum value) :=
  ⟨fun h => by simp [sourceTrustClamp, h],
   fun h => by simp [sourceTrustClamp, not_lt.mpr h],
   rfl⟩

/-- C8 amended witness: the trust clamp faults at (1, 0) and clamps 1/2 to
1/2 on the ordinary range (0, 1). -/
theorem claim_C8_amended_clamp_witness :
    sourceTrustClamp (1/2) 1 0 = .error (.verificationFault "Invalid clamp range")
      ∧ sourceTrustClamp (1/2) 0 1 = .ok (max 0 (min 1 (1/2))) :=
  ⟨(claim_C8_amended_clamp (1/2) 1 0).1 (by norm_num),
   (claim_C8_amended_clamp (1/2) 0 1).2.1 (by norm_num)⟩

/-- C9 counterexample: `verify` reads the wall clock, and the same
immutable candidate list gives different results at clock readings one
hour apart — on `sampleArticles` (published at the epoch) the recency
factor is 1.2 at 7 days but 0.96 at 7 days + 1 hour, so two calls between
which an hour elapsed are not identical in every field. -/
theorem claim_C9_counterexample :
    (verify defaultVSConfig 604800 sampleArticles).toOption.map VerificationResult.recency_factor
        = some (6/5)
      ∧ (verify defaultVSConfig 608400 sampleArticles).toOption.map VerificationResult.recency_factor
        = some (24/25)
      ∧ verify defaultVSConfig 604800 sampleArticles ≠ verify defaultVSConfig 608400 sampleArticles := by
  have h1 : (verify defaultVSConfig 604800 sampleArticles).toOption.map VerificationResult.recency_factor
      = some (6/5) := by
    norm_num +decide [verify, selectArticles, sampleArticles, defaultVSConfig,
      SimilarArticle.normalized_similarity, SimilarArticle.normalized_credibility,
      verificationServiceClamp, SIMILARITY_THRESHOLD, uniqueSources, weightedAverage,
      diversityFactor, DIVERSITY_THRESHOLD, MIN_SOURCES_FOR_VERIFICATION,
      recencyFactor, recencyWeights, datedTimes, maxHourlyBucket, hourBucket, recencyWeight,
      geographyFactor, countryCodes, round4, round_eq, determineStatus, findStatus,
      statusRequirements, SCORE_VERIFIED, SCORE_LIKELY_TRUE, SCORE_UNCERTAIN, SCORE_DISPUTED,
      MIN_SOURCES_VERIFIED, MIN_SOURCES_LIKELY_TRUE, MIN_SOURCES_UNCERTAIN, MIN_SOURCES_DISPUTED,
      determineConfidence, statusReason, List.filter, List.filterMap, List.map, List.count,
      List.foldr, List.sum, List.dedup, List.pwFilter, Except.toOption, Option.map]
  have h2 : (verify defaultVSConfig 608400 sampleArticles).toOption.map VerificationResult.recency_factor
      = some (24/25) := by
    norm_num +decide [verify, selectArticles, sampleArticles, defaultVSConfig,
      SimilarArticle.normalized_similarity, SimilarArticle.normalized_credibility,
      verificationServiceClamp, SIMILARITY_THRESHOLD, uniqueSources, weightedAverage,
      diversityFactor, DIVERSITY_THRESHOLD, MIN_SOURCES_FOR_VERIFICATION,
      recencyFactor, recencyWeights, datedTimes, maxHourlyBucket, hourBucket, recencyWeight,
      geographyFactor, countryCodes, round4, round_eq, determineStatus, findStatus,
      statusRequirements, SCORE_VERIFIED, SCORE_LIKELY_TRUE, SCORE_UNCERTAIN, SCORE_DISPUTED,
      MIN_SOURCES_VERIFIED, MIN_SOURCES_LIKELY_TRUE, MIN_SOURCES_UNCERTAIN, MIN_SOURCES_DISPUTED,
      determineConfidence, statusReason, List.filter, List.filterMap, List.map, List.count,
      List.foldr, List.sum, List.dedup, List.pwFilter, Except.toOption, Option.map]
  refine ⟨h1, h2, fun heq => ?_⟩
  rw [heq, h2] at h1
  norm_num at h1

/-- The similarity filter does not alter publication timestamps. -/
theorem selectArticles_published (cfg : VSConfig) (articles : List SimilarArticle)
    (a : SimilarArticle) (ha : a ∈ selectArticles cfg articles) :
    ∃ b ∈ articles, a.published_at = b.published_at := by
  simp only [selectArticles, List.mem_map, List.mem_filter] at ha
  obtain ⟨b, ⟨hb, _⟩, rfl⟩ := ha
  exact ⟨b, hb, rfl⟩

/-- The recency factor only depends on the clock through each dated
article's age bucket. -/
theorem recencyFactor_congr (now1 now2 : ℚ) (l : List SimilarArticle)
    (h : ∀ a ∈ l, sameAgeBucket now1 now2 a = true) :
    recencyFactor now1 l = recencyFactor now2 l := by
  have hw : recencyWeights now1 l = recencyWeights now2 l := by
    unfold recencyWeights
    apply List.map_congr_left
    intro p hp
    simp only [datedTimes, List.mem_filterMap] at hp
    obtain ⟨a, ha, hpa⟩ := hp
    have hb := h a ha
    simpa [sameAgeBucket, hpa] using hb
  unfold recencyFactor
  rw [hw]

/-- C9 amended: `verify` is a pure function of the candidate list and the
clock reading; two calls on the same immutable list agree in every field
whenever each dated candidate's age falls in the same recency bucket at
both readings (in particular whenever the readings are equal). Between
calls at different times a candidate's age can cross a bucket boundary and
change the recency factor and the score. -/
theorem claim_C9_amended_idempotence (cfg : VSConfig) (now1 now2 : ℚ)
    (articles : List SimilarArticle)
    (h : ∀ a ∈ articles, sameAgeBucket now1 now2 a = true) :
    verify cfg now1 articles = verify cfg now2 articles := by
  have hsel : ∀ a ∈ selectArticles cfg articles, sameAgeBucket now1 now2 a = true := by
    intro a ha
    obtain ⟨b, hb, hpub⟩ := selectArticles_published cfg articles a ha
    have := h b hb
    simp only [sameAgeBucket, hpub]
    simpa [sameAgeBucket] using this
  have hrec : recencyFactor now1 (selectArticles cfg articles)
      = recencyFactor now2 (selectArticles cfg articles) :=
    recencyFactor_congr now1 now2 _ hsel
  simp only [verify, hrec]

/-- C9 amended witness: at readings 0 and 3600 (one hour apart, both
inside the 7-day bucket for `sampleArticles`) the two `verify` calls
agree. -/
theorem claim_C9_amended_idempotence_witness :
    verify defaultVSConfig 0 sampleArticles = verify defaultVSConfig 3600 sampleArticles := by
  apply claim_C9_amended_idempotence
  intro a ha
  simp only [sampleArticles, List.mem_cons, List.not_mem_nil, or_false] at ha
  rcases ha with h | h | h <;> subst h <;> norm_num [sameAgeBucket, recencyWeight]

/-- C10 counterexample: a workflow constructed with default_limit 0 passes
the search collaborator the limit 0 when the caller supplies none — the
effective limit is not always between 1 and 50. -/
theorem claim_C10_counterexample :
    effectiveSearchLimit 0 none = 0 ∧ ¬ 1 ≤ effectiveSearchLimit 0 none := by
  constructor <;> decide

/-- C10 amended: the effective search limit is min(limit, 50) for a
positive supplied limit, 1 for a zero or negative supplied limit, and
min(default_limit, 50) when none is supplied; whenever the configured
default_limit is at least 1 (its constructor default is
MAX_SIMILAR_ARTICLES = 50) the effective limit lies between 1 and 50. -/
theorem claim_C10_amended_limit (default_limit : ℤ) (limit : Option ℤ) :
    (∀ l, limit = some l → 0 < l →
        effectiveSearchLimit default_limit limit = min l 50)
      ∧ (∀ l, limit = some l → l ≤ 0 →
          effectiveSearchLimit default_limit limit = 1)
      ∧ (limit = none →
          effectiveSearchLimit default_limit limit = min default_limit 50)
      ∧ (1 ≤ default_limit →
          1 ≤ effectiveSearchLimit default_limit limit
            ∧ effectiveSearchLimit default_limit limit ≤ 50)
      ∧ MAX_SIMILAR_ARTICLES = 50 := by
  refine ⟨?_, ?_, ?_, ?_, rfl⟩
  · rintro l rfl hl
    simp only [effectiveSearchLimit, determineLimit, MAX_SIMILAR_ARTICLES,
      if_neg (by omega : ¬ l ≤ 0)]
  · rintro l rfl hl
    simp only [effectiveSearchLimit, determineLimit, if_pos hl]
  · rintro rfl
    simp only [effectiveSearchLimit, determineLimit, initDefaultLimit, MAX_SIMILAR_ARTICLES]
  · intro hdl
    rcases limit with _ | l
    · simp only [effectiveSearchLimit, determineLimit, initDefaultLimit, MAX_SIMILAR_ARTICLES]
      omega
    · simp only [effectiveSearchLimit, determineLimit, MAX_SIMILAR_ARTICLES]
      split_ifs <;> omega

/-- C10 amended witness: with the constructor default 50, a supplied limit
7 passes through as min 7 50 and stays in [1, 50]; -2 becomes 1; with
default 7 and no supplied limit the effective limit is min 7 50. -/
theorem claim_C10_amended_limit_witness :
    effectiveSearchLimit 50 (some 7) = min 7 50
      ∧ effectiveSearchLimit 50 (some (-2)) = 1
      ∧ effectiveSearchLimit 7 none = min 7 50
      ∧ 1 ≤ effectiveSearchLimit 50 (some 7)
      ∧ effectiveSearchLimit 50 (some 7) ≤ 50 := by
  have h7 := claim_C10_amended_limit 50 (some 7)
  have hm := claim_C10_amended_limit 50 (some (-2))
  have hn := claim_C10_amended_limit 7 none
  have hr := h7.2.2.2.1 (by norm_num)
  exact ⟨h7.1 7 rfl (by norm_num), hm.2.1 (-2) rfl (by norm_num),
    hn.2.2.1 rfl, hr.1, hr.2⟩

end FakeNewsDetection
